import Mathlib

/-!
Shallow embedding of the Conan recipe `conanfile.py` of
eclipse-uprotocol/up-client-zenoh-cpp (class `UpClientZenoh`).

The recipe maps a set of boolean build options and one environment
variable (`BUILD_DIR_FULL_PATH`) to a dependency list and to one of two
build/package/publish flows.  Each phase method of the recipe is embedded
as a pure Lean function; the ambient process environment is modelled by
the value of `BUILD_DIR_FULL_PATH` (`Option String`, `none` when unset),
and side effects of a phase (toolchain invocations, file copies, emitted
toolchain variables, published metadata) are returned explicitly.
-/

/-- The five user-facing options of the recipe (the `options` dict,
lines 21-27 of the source). -/
structure OptionSet where
  shared : Bool
  fPIC : Bool
  build_testing : Bool
  build_unbundled : Bool
  build_cross_compiling : Bool
deriving DecidableEq

/-- The `default_options` dict of the recipe (lines 29-35). -/
def default_options : OptionSet :=
  { shared := false
    fPIC := false
    build_testing := false
    build_unbundled := true
    build_cross_compiling := false }

/-- The `requirements` method (lines 37-45): each `self.requires(r)` call
appends the reference string `r`, in source order. -/
def requirements (o : OptionSet) : List String :=
  ["protobuf/3.21.12" ++ (if o.build_cross_compiling then "@cross/cross" else "")]
  ++ ["spdlog/1.13.0"]
  ++ ["up-cpp/x.y.z"]
  ++ (if o.build_testing then ["gtest/1.14.0", "boost/1.84.0"] else [])
  ++ (if o.build_unbundled then ["zenohc/cci.20240213"] else [])

/-- The component name of a Conan reference string: the part before the
first `/` (e.g. `protobuf` from `protobuf/3.21.12@cross/cross`). -/
def componentName (r : String) : String :=
  String.mk (r.toList.takeWhile (fun c => c != '/'))

/-- The environment-override test used verbatim by the `build`, `package`
and `package_info` methods:
`os.environ.get("BUILD_DIR_FULL_PATH") is not None`. -/
def overrideDetected (env : Option String) : Bool :=
  env.isSome

/-- Modelled from the spec (section 4.2, EnvironmentOverrideDetector),
for comparison with `overrideDetected`: the spec requires the override to
be reported present only when the variable is set to a NON-EMPTY string. -/
def specOverridePresent (env : Option String) : Bool :=
  match env with
  | some s => s != ""
  | none => false

/-- The observable toolchain actions of the `build` phase. -/
inductive BuildAction where
  | cmakeConfigure
  | cmakeBuild
deriving DecidableEq

/-- The `build` method (lines 52-57): when `BUILD_DIR_FULL_PATH` is set
it returns immediately; otherwise it configures and builds with CMake. -/
def build (env : Option String) : List BuildAction :=
  if overrideDetected env then []
  else [BuildAction.cmakeConfigure, BuildAction.cmakeBuild]

/-- The observable actions of the `package` phase.  `copyTree` records
the arguments of `self.copy(pattern, dst, src, symlinks, ignore_case)`. -/
inductive PackageAction where
  | copyTree (pattern dst src : String) (symlinks ignoreCase : Bool)
  | cmakeInstall
deriving DecidableEq

/-- The `package` method (lines 59-67): when `BUILD_DIR_FULL_PATH` is set
it copies `<path>/install` with `symlinks=True, ignore_case=False`;
otherwise it runs the CMake install step. -/
def package (env : Option String) : List PackageAction :=
  match env with
  | some p => [PackageAction.copyTree "*" "." (p ++ "/install") true false]
  | none => [PackageAction.cmakeInstall]

/-- The toolchain variables emitted by the `generate` method
(lines 47-50).  The method never reads the environment; the `env`
parameter records that the ambient environment is available to it. -/
def generate (o : OptionSet) (env : Option String) : List (String × Bool) :=
  [("BUILD_TESTING", o.build_testing)]

/-- The `cpp_info` record assembled by `package_info`.  `none` on an
`Option` field means the recipe never set that property; `requires`
is `none` when the recipe leaves `cpp_info.requires` unset. -/
structure PublishedInfo where
  cmake_file_name : Option String := none
  cmake_target_name : Option String := none
  pkg_config_name : Option String := none
  libs : List String := []
  requires : Option (List String) := none
  names_cmake_find_package : Option String := none
  names_cmake_find_package_multi : Option String := none
deriving DecidableEq

/-- The `package_info` method (lines 69-81).  `collected` stands for the
result of the external `collect_libs(self)` scan of the package folder.
The method never reads the OptionSet; the `o` parameter records that the
options are available to it. -/
def package_info (o : OptionSet) (env : Option String) (collected : List String) :
    PublishedInfo :=
  if overrideDetected env then
    { cmake_file_name := some "up-client-zenoh-cpp"
      cmake_target_name := some "up-client-zenoh-cpp::up-client-zenoh-cpp"
      pkg_config_name := some "up-client-zenoh-cpp"
      libs := collected
      requires := some ["up-cpp::up-cpp", "zenohc::zenohc", "spdlog::spdlog",
                        "protobuf::protobuf"]
      names_cmake_find_package := some "up-client-zenoh-cpp"
      names_cmake_find_package_multi := some "up-client-zenoh-cpp" }
  else
    { libs := ["up-client-zenoh-cpp"] }

/-- Claim C1 (counterexample): the claim as stated is false at the
concrete input env unset — the record published when `BUILD_DIR_FULL_PATH`
is unset does NOT carry the discovery aliases (and carries no
upstream-requirement list at all). -/
theorem package_info_unset_lacks_aliases :
    ¬ ((package_info default_options none []).cmake_file_name
        = some "up-client-zenoh-cpp")
    ∧ (package_info default_options none []).requires = none := by
  constructor
  · decide
  · rfl

/-- Claim C1 (amended): the two `package_info` branches are the reverse
of the claim.  When `BUILD_DIR_FULL_PATH` is SET the published record
carries the three discovery aliases set to the canonical package name,
the scanned library list, and the fixed 4-element upstream-requirement
list; when it is UNSET the record names only the artifact itself,
omitting the aliases and the requirement list. -/
theorem package_info_branch_contents (o : OptionSet) (p : String)
    (collected : List String) :
    package_info o (some p) collected =
      { cmake_file_name := some "up-client-zenoh-cpp"
        cmake_target_name := some "up-client-zenoh-cpp::up-client-zenoh-cpp"
        pkg_config_name := some "up-client-zenoh-cpp"
        libs := collected
        requires := some ["up-cpp::up-cpp", "zenohc::zenohc",
                          "spdlog::spdlog", "protobuf::protobuf"]
        names_cmake_find_package := some "up-client-zenoh-cpp"
        names_cmake_find_package_multi := some "up-client-zenoh-cpp" }
    ∧ package_info o none collected =
      { libs := ["up-client-zenoh-cpp"] } := by
  exact ⟨rfl, rfl⟩

/-- Claim C2 (counterexample): with `BUILD_DIR_FULL_PATH` set to the
empty string, the code reports the override as present (and the build
phase skips the toolchain), whereas the claim demands it be absent and
NATIVE_BUILD behavior apply. -/
theorem override_empty_string_detected :
    overrideDetected (some "") = true
    ∧ specOverridePresent (some "") = false
    ∧ build (some "") = [] := by
  refine ⟨rfl, rfl, rfl⟩

/-- Claim C2 (amended): the detection that gates the phases reports the
override as present exactly when `BUILD_DIR_FULL_PATH` is set — to any
value, the empty string included — and absent only when it is unset; the
build phase invokes the toolchain exactly when the override is absent. -/
theorem override_detected_iff_set (env : Option String) :
    (overrideDetected env = true ↔ env ≠ none)
    ∧ (build env = [] ↔ overrideDetected env = true) := by
  cases env <;> simp [overrideDetected, build]

/-- Claim C3: with `build_testing=false` and `build_unbundled=false` the
resolved list is exactly the three unconditional requirements —
serialization (protobuf), logging (spdlog), transport API (up-cpp) —
in that order. -/
theorem requirements_minimal (o : OptionSet)
    (ht : o.build_testing = false) (hu : o.build_unbundled = false) :
    requirements o =
      [(if o.build_cross_compiling then "protobuf/3.21.12@cross/cross"
        else "protobuf/3.21.12"), "spdlog/1.13.0", "up-cpp/x.y.z"]
    ∧ (requirements o).map componentName = ["protobuf", "spdlog", "up-cpp"] := by
  obtain ⟨s, f, t, u, c⟩ := o
  simp only at ht hu
  subst ht; subst hu
  cases s <;> cases f <;> cases c <;> exact ⟨rfl, by decide⟩

/-- Claim C3 witness: evaluation at a concrete OptionSet. -/
theorem requirements_minimal_witness :
    (⟨false, false, false, false, false⟩ : OptionSet).build_testing = false
    ∧ (⟨false, false, false, false, false⟩ : OptionSet).build_unbundled = false
    ∧ (requirements ⟨false, false, false, false, false⟩ =
        ["protobuf/3.21.12", "spdlog/1.13.0", "up-cpp/x.y.z"]
      ∧ (requirements ⟨false, false, false, false, false⟩).map componentName
          = ["protobuf", "spdlog", "up-cpp"]) :=
  ⟨rfl, rfl, requirements_minimal ⟨false, false, false, false, false⟩ rfl rfl⟩

/-- Claim C4: for the OptionSet with `build_testing=true`,
`build_unbundled=true`, `build_cross_compiling=false` (any `shared`,
`fPIC`) and no override set, the resolved list is exactly
[serialization, logging, transport API, test framework, utility library,
transport backend] in that order, and `generate` forwards
`BUILD_TESTING=true` to the toolchain configuration. -/
theorem requirements_full_scenario (s f : Bool) :
    requirements ⟨s, f, true, true, false⟩ =
      ["protobuf/3.21.12", "spdlog/1.13.0", "up-cpp/x.y.z",
       "gtest/1.14.0", "boost/1.84.0", "zenohc/cci.20240213"]
    ∧ generate ⟨s, f, true, true, false⟩ none = [("BUILD_TESTING", true)] := by
  exact ⟨rfl, rfl⟩

/-- Claim C5: the transport-backend requirement (zenohc) is resolved if
and only if `build_unbundled` is true; `build_unbundled` defaults to
true, so it is included under the default options. -/
theorem zenohc_iff_unbundled (o : OptionSet) :
    ("zenohc/cci.20240213" ∈ requirements o ↔ o.build_unbundled = true)
    ∧ default_options.build_unbundled = true
    ∧ "zenohc/cci.20240213" ∈ requirements default_options := by
  obtain ⟨s, f, t, u, c⟩ := o
  refine ⟨?_, rfl, by decide⟩
  cases t <;> cases u <;> cases c <;> simp [requirements]

/-- Claim C6: flipping `build_cross_compiling` changes only the channel
qualifier of the serialization (protobuf) requirement at the head of the
list; the remainder of the list is identical and the length is
unchanged (nothing added, removed or reordered). -/
theorem cross_compiling_only_changes_channel (o : OptionSet) :
    (requirements { o with build_cross_compiling := true }).head?
      = some "protobuf/3.21.12@cross/cross"
    ∧ (requirements { o with build_cross_compiling := false }).head?
      = some "protobuf/3.21.12"
    ∧ (requirements { o with build_cross_compiling := true }).tail
      = (requirements { o with build_cross_compiling := false }).tail
    ∧ (requirements { o with build_cross_compiling := true }).length
      = (requirements { o with build_cross_compiling := false }).length := by
  obtain ⟨s, f, t, u, c⟩ := o
  cases t <;> cases u <;> exact ⟨rfl, rfl, rfl, rfl⟩

/-- Claim C7: with `BUILD_DIR_FULL_PATH` set to any path `p`, the build
phase performs no toolchain action, and the package phase performs
exactly one recursive copy of `p ++ "/install"` with symlink
preservation on (`symlinks=True`) and case transformation off
(`ignore_case=False`). -/
theorem prebuilt_mode_build_package (p : String) :
    build (some p) = []
    ∧ package (some p) =
        [PackageAction.copyTree "*" "." (p ++ "/install") true false] := by
  exact ⟨rfl, rfl⟩

/-- Claim C8: requirement resolution is a pure, deterministic function of
the OptionSet: two invocations on an identical OptionSet yield identical
ordered lists (it is a Lean function of the OptionSet alone, so it has no
side effects and no other state dependence). -/
theorem requirements_deterministic (o₁ o₂ : OptionSet) (h : o₁ = o₂) :
    requirements o₁ = requirements o₂ := by
  rw [h]

/-- Claim C8 witness: determinism evaluated at the default OptionSet. -/
theorem requirements_deterministic_witness :
    default_options = default_options
    ∧ requirements default_options = requirements default_options :=
  ⟨rfl, requirements_deterministic default_options default_options rfl⟩

/-- Claim C9: in the override branch of `package_info`, the published
upstream-requirement list is the fixed four-element list
[up-cpp, zenohc, spdlog, protobuf], for every OptionSet (in particular
when `build_unbundled=false` or `build_testing=true`) and every scanned
library list. -/
theorem package_info_requires_fixed (o : OptionSet) (p : String)
    (collected : List String) :
    (package_info o (some p) collected).requires =
      some ["up-cpp::up-cpp", "zenohc::zenohc", "spdlog::spdlog",
            "protobuf::protobuf"] := by
  rfl

/-- Claim C10: the `generate` phase is unaffected by the
`BUILD_DIR_FULL_PATH` override: for every environment it emits exactly
the single toolchain variable `BUILD_TESTING` with the value of the
`build_testing` option, and its output is identical across any two
environments. -/
theorem generate_ignores_environment (o : OptionSet) (e₁ e₂ : Option String) :
    generate o e₁ = [("BUILD_TESTING", o.build_testing)]
    ∧ generate o e₁ = generate o e₂ := by
  exact ⟨rfl, rfl⟩
